import Mathlib

/-!
Shallow embedding of the templet template engine
(src/templet.cpp, src/nodes.hpp, nodes.cpp, types.cpp, trim.hpp,
strutils.hpp, split.hpp).

Strings are modelled as `List Char`.  `std::string::find` returns an
optional index, `substr`/`erase` become `take`/`drop`.  The exception
classes of `nodes.hpp` become the `TempletError` inductive; C++ functions
that may throw return `Except TempletError`.
-/

/-- `mylib::is_ws` / `std::isspace` in the default C locale. -/
def is_ws (c : Char) : Bool :=
  c == ' ' || c == '\t' || c == '\n' || c == '\x0b' || c == '\x0c' || c == '\r'

/-- `std::string::find(char)`: index of the first occurrence, if any. -/
def strFind : List Char → Char → Option Nat
  | [], _ => none
  | c :: cs, t => if c == t then some 0 else (strFind cs t).map (· + 1)

/-- `mylib::starts_with` (strutils.hpp): `lhs` begins with `rhs`. -/
def starts_with (lhs rhs : List Char) : Bool :=
  if lhs.length < rhs.length then false else lhs.take rhs.length == rhs

/-- `mylib::ends_with` (strutils.hpp): `lhs` ends with `rhs`. -/
def ends_with (lhs rhs : List Char) : Bool :=
  if lhs.length < rhs.length then false
  else lhs.drop (lhs.length - rhs.length) == rhs

/-- `mylib::ltrimmed` / `mylib::ltrim` (trim.hpp): drop leading whitespace. -/
def ltrimmed (l : List Char) : List Char := l.dropWhile is_ws

/-- `mylib::rtrimmed` / `mylib::rtrim` (trim.hpp): drop trailing whitespace. -/
def rtrimmed (l : List Char) : List Char := (l.reverse.dropWhile is_ws).reverse

/-- `mylib::trim` / `mylib::trimmed` (trim.hpp). -/
def trimmed (l : List Char) : List Char := ltrimmed (rtrimmed l)

/-- Inner loop of `mylib::split` (split.hpp): repeated `std::getline` with a
separator.  A trailing separator does not produce a trailing empty token.
Fuelled; the wrapper supplies enough fuel (each round consumes at least one
character). -/
def splitGoAux (sep : Char) : Nat → List Char → List (List Char)
  | 0, _ => []
  | fuel + 1, l =>
    match strFind l sep with
    | none => [l]
    | some i =>
      let rest := l.drop (i + 1)
      if rest.isEmpty then [l.take i] else l.take i :: splitGoAux sep fuel rest

/-- `mylib::split` (split.hpp): empty input gives no tokens. -/
def splitChar (l : List Char) (sep : Char) : List (List Char) :=
  if l.isEmpty then [] else splitGoAux sep (l.length + 1) l

/-- The runtime data model of types.hpp: `DataValue` (a string scalar),
`DataList` and `DataMapper`.  `DataPtr` indirection is dropped. -/
inductive Data where
  | value (s : List Char)
  | list (items : List Data)
  | mapper (m : List (List Char × Data))

/-- `templet::types::DataMap` = `std::map<std::string, DataPtr>`, modelled as
an association list with unique keys; lookup finds the first binding. -/
abbrev DataMap := List (List Char × Data)

/-- `DataMap::count` / `at`: find the binding of a key. -/
def lookupMap : DataMap → List Char → Option Data
  | [], _ => none
  | (k, v) :: rest, key => if k == key then some v else lookupMap rest key

/-- `map[key] = value` on a `std::map`: replace the existing binding or add
a new one. -/
def mapInsert : DataMap → List Char → Data → DataMap
  | [], key, v => [(key, v)]
  | (k, w) :: rest, key, v =>
    if k == key then (key, v) :: rest else (k, w) :: mapInsert rest key v

/-- The exception classes of nodes.hpp: `InvalidTagError`, `MissingTagError`
and `ExpressionSyntaxError`.  `runtimeFuel` is an artifact of the fuelled
embedding of the C++ loops and is unreachable for the fuel the wrappers
supply. -/
inductive TempletError where
  | invalidTagError (msg : String)
  | missingTagError (msg : String)
  | expressionSyntaxError (msg : String)
  | runtimeFuel
deriving DecidableEq

/-- The character set of `isValidName` (nodes.cpp, unnamed namespace). -/
def validNameChar (c : Char) : Bool :=
  (('a' ≤ c && c ≤ 'z') || ('A' ≤ c && c ≤ 'Z') ||
   ('0' ≤ c && c ≤ '9') || (c == '_' || c == '-'))

/-- `isValidName` (nodes.cpp): every character is alphanumeric, `_` or `-`. -/
def isValidName (name : List Char) : Bool := name.all validNameChar

/-- The character set of `isValidNameExpression` (nodes.cpp). -/
def validNameExprChar (c : Char) : Bool :=
  validNameChar c || (c == '[' || c == ']' || c == '.')

/-- The `name.find("..") != npos` test of `isValidNameExpression`. -/
def hasMultiDot : List Char → Bool
  | '.' :: '.' :: _ => true
  | _ :: rest => hasMultiDot rest
  | [] => false

/-- `isValidNameExpression` (nodes.cpp): name-expression characters only and
no doubled dot. -/
def isValidNameExpression (name : List Char) : Bool :=
  name.all validNameExprChar && !(hasMultiDot name)

/-- Numeric value of a list of decimal digit characters. -/
def digitsToNat (ds : List Char) : Nat :=
  ds.foldl (fun acc c => acc * 10 + (c.toNat - ('0').toNat)) 0

/-- `parse_number` (nodes.cpp): `std::istringstream >> int` followed by
`>> std::ws` and an EOF check — optional leading whitespace, an optional
sign, one or more decimal digits, optional trailing whitespace, nothing
else.  Since C++11 the extraction sets failbit when the value does not fit
the 32-bit `int`, so values outside [-2147483648, 2147483647] fail. -/
def parse_number (text : List Char) : Option Int :=
  let t := text.dropWhile is_ws
  let (sign, t2) : Int × List Char :=
    match t with
    | c :: r => if c == '-' then (-1, r) else if c == '+' then (1, r) else (1, t)
    | [] => (1, t)
  let ds := t2.takeWhile Char.isDigit
  if ds.isEmpty then none
  else
    let rest := (t2.drop ds.length).dropWhile is_ws
    if rest.isEmpty then
      let v := sign * (digitsToNat ds : Int)
      if -2147483648 ≤ v ∧ v ≤ 2147483647 then some v else none
    else none

/-- `parse_array_index` (nodes.cpp): given `[n]` return `n`; negative
indexes are allowed here. -/
def parse_array_index (ins : List Char) : Except TempletError Int :=
  if !(starts_with ins (("[").toList) && ends_with ins (("]").toList)) then
    .error (.invalidTagError ("Invalid array syntax: Value must be enclosed with []"))
  else
    let raw_number := (ins.drop 1).take (ins.length - 2)
    match parse_number raw_number with
    | none => .error (.invalidTagError ("Invalid array index: Value must be an integer"))
    | some idx => .ok idx

/-- The implicit `int` → `std::size_t` conversion at
`const std::size_t index = parse_array_index(...)` in `parse_tag`
(nodes.cpp): reduction modulo 2^64. -/
def sizeT (i : Int) : Nat := (i % ((2 : Int) ^ 64)).toNat

/-- The inner `while(!arr.empty())` loop of `parse_tag` (nodes.cpp): walk a
chain of `[n]` suffixes down nested lists.  Returns `some item` when the
loop ends with a final element and `none` when the code resets `lastItem`
and gives up ("not found").  Fuelled; the wrapper supplies enough fuel.
When `arr` holds no `]` the C++ calls `parse_array_index` on an empty
substring, which always throws, so that branch stops with its error. -/
def parse_tag_arrAux : Nat → List Char → List Data → List Char →
    Except TempletError (Option Data)
  | 0, _, _, _ => .error .runtimeFuel
  | fuel + 1, arr, listRef, tag =>
    if arr.isEmpty then .ok (some (.list listRef))
    else
      match strFind arr ']' with
      | none =>
        (parse_array_index ((arr.take 0))).map (fun _ => none)
      | some arrEndPos =>
        match parse_array_index (arr.take (arrEndPos + 1)) with
        | .error e => .error e
        | .ok idx =>
          let arr2 := arr.drop (arrEndPos + 1)
          if !arr2.isEmpty && !(arr2.take 1 == (("[").toList)) then
            .error (.invalidTagError ("Invalid syntax: " ++ String.mk tag))
          else
            let index := sizeT idx
            if listRef.length ≤ index then .ok none
            else
              match listRef.get? index with
              | none => .ok none
              | some item =>
                match item with
                | .list xs => parse_tag_arrAux fuel arr2 xs tag
                | _ => if arr2.isEmpty then .ok (some item) else .ok none

/-- Wrapper choosing sufficient fuel for `parse_tag_arrAux`: every loop
iteration consumes at least one character of `arr`. -/
def parse_tag_arr (arr : List Char) (listRef : List Data) (tag : List Char) :
    Except TempletError (Option Data) :=
  parse_tag_arrAux (arr.length + 1) arr listRef tag

/-- One iteration body of the outer loop of `parse_tag` (nodes.cpp): handle
a single dot-segment `tag` against the current map.  `ok none` covers the
"not found" resets (`lastItem.reset(); break`). -/
def parse_tag_segment (tag : List Char) (kv : DataMap) :
    Except TempletError (Option Data) :=
  let arrPos := strFind tag '['
  let tagName := match arrPos with
    | none => tag
    | some p => tag.take p
  if tagName.isEmpty then
    .error (.invalidTagError ("Tags must have a name: " ++ String.mk tag))
  else if !(isValidName tagName) then
    .error (.invalidTagError ("Invalid syntax: " ++ String.mk tag))
  else
    match lookupMap kv tagName with
    | none => .ok none
    | some item =>
      match arrPos with
      | none => .ok (some item)
      | some p =>
        match item with
        | .list xs => parse_tag_arr (tag.drop p) xs tag
        | _ => .ok none

/-- The outer `while(!name.empty())` loop of `parse_tag` (nodes.cpp):
consume one dot-segment per iteration; after a segment, a non-empty
remaining name requires the current item to be a map.  Fuelled; the
wrapper supplies enough fuel. -/
def parse_tagAux : Nat → List Char → DataMap →
    Except TempletError (Option Data)
  | 0, _, _ => .error .runtimeFuel
  | fuel + 1, name, kv =>
    if name.isEmpty then .ok none
    else
      match strFind name '.' with
      | none => parse_tag_segment name kv
      | some pos =>
        match parse_tag_segment (name.take pos) kv with
        | .error e => .error e
        | .ok none => .ok none
        | .ok (some item) =>
          let rest := name.drop (pos + 1)
          if rest.isEmpty then .ok (some item)
          else
            match item with
            | .mapper m => parse_tagAux fuel rest m
            | _ =>
              .error (.invalidTagError ("Dot notation can only be used on maps"))

/-- `parse_tag` (nodes.cpp): resolve a full dotted/indexed tag name against
a map of values.  `ok none` is the non-fatal "not found" result (a null
`DataPtr`). -/
def parse_tag (name : List Char) (kv : DataMap) :
    Except TempletError (Option Data) :=
  parse_tagAux (name.length + 1) name kv

/-- `parse_tag_string` (nodes.cpp): resolve and require a string scalar. -/
def parse_tag_string (name : List Char) (kv : DataMap) :
    Except TempletError (List Char) :=
  match parse_tag name kv with
  | .error e => .error e
  | .ok none =>
    .error (.missingTagError ("Tag name not found: " ++ String.mk name))
  | .ok (some res) =>
    match res with
    | .value s => .ok s
    | _ => .error (.invalidTagError ("Invalid tag name: Name must reference a string"))

/-- `parse_tag_list` (nodes.cpp): resolve and require a list. -/
def parse_tag_list (name : List Char) (kv : DataMap) :
    Except TempletError (List Data) :=
  match parse_tag name kv with
  | .error e => .error e
  | .ok none =>
    .error (.missingTagError ("Tag name not found: " ++ String.mk name))
  | .ok (some res) =>
    match res with
    | .list xs => .ok xs
    | _ => .error (.invalidTagError ("Invalid tag name: Name must reference a list"))

/-- The AST node variants of nodes.hpp (`NodeType` and the `Node`
subclasses): `Text`, `Value`, `IfValue`, `ElifValue`, `ElseValue`,
`ForValue`.  Only block nodes carry children. -/
inductive Node where
  | text (s : List Char)
  | value (name : List Char)
  | ifv (name : List Char) (children : List Node)
  | elifv (name : List Char) (children : List Node)
  | elsev (children : List Node)
  | forv (name alias_ : List Char) (children : List Node)

/-- `Node::setChildren` as overridden by the block nodes (nodes.cpp);
`Text`/`Value` never receive children in `tokenize`, so the base-class
`std::runtime_error` path is modelled as the identity. -/
def Node.setChildren : Node → List Node → Node
  | .ifv name _, cs => .ifv name cs
  | .elifv name _, cs => .elifv name cs
  | .elsev _, cs => .elsev cs
  | .forv name alias_ _, cs => .forv name alias_ cs
  | n, _ => n

/-- The `type() == ElifValue || type() == ElseValue` test used by
`IfValue::evaluate` (nodes.cpp). -/
def Node.isClause : Node → Bool
  | .elifv _ _ => true
  | .elsev _ => true
  | _ => false

/-- The `Value` constructor (nodes.cpp): validates the name expression. -/
def mkValue (name : List Char) : Except TempletError Node :=
  if !(isValidNameExpression name) then
    .error (.invalidTagError ("Variable tag name contains invalid characters"))
  else .ok (.value name)

/-- The `IfValue` constructor (nodes.cpp). -/
def mkIfValue (name : List Char) : Except TempletError Node :=
  if !(isValidNameExpression name) then
    .error (.invalidTagError ("If expression tag name contains invalid characters"))
  else .ok (.ifv name [])

/-- The `ElifValue` constructor (nodes.cpp): same validation as `IfValue`. -/
def mkElifValue (name : List Char) : Except TempletError Node :=
  if !(isValidNameExpression name) then
    .error (.invalidTagError ("If expression tag name contains invalid characters"))
  else .ok (.elifv name [])

/-- The `ForValue` constructor (nodes.cpp): validates both names. -/
def mkForValue (name alias_ : List Char) : Except TempletError Node :=
  if !(isValidNameExpression name) then
    .error (.invalidTagError ("For expression first tag name contains invalid characters"))
  else if !(isValidName alias_) then
    .error (.invalidTagError ("For expression second tag name contains invalid characters"))
  else .ok (.forv name alias_ [])

/-- `templet::nodes::parse_value_tag` (nodes.cpp): strip the enclosing
`\x7b$` and `\x7d`, trim, and build a `Value` node. -/
def parse_value_tag (ins : List Char) : Except TempletError Node :=
  if !(starts_with ins (("\x7b$").toList) && ends_with ins (("\x7d").toList)) then
    .error (.invalidTagError ("Tag must be enclosed with \x7b$ and \x7d"))
  else
    let s1 := ins.drop 2
    let s2 := s1.take ((strFind s1 '\x7d').getD s1.length)
    mkValue (trimmed s2)

/-- `templet::nodes::parse_ifvalue_tag` (nodes.cpp): strip `\x7b%`, cut at
the first `%`, trim, require the `if ` prefix, and take the rest as the
condition name. -/
def parse_ifvalue_tag (ins : List Char) : Except TempletError Node :=
  if !(starts_with ins (("\x7b%").toList) && ends_with ins (("%\x7d").toList)) then
    .error (.invalidTagError ("Tag must be enclosed with \x7b% and %\x7d"))
  else
    let s1 := ins.drop 2
    let s2 := trimmed (s1.take ((strFind s1 '%').getD s1.length))
    if !(starts_with s2 (("if ").toList)) then
      .error (.invalidTagError ("Tag must be prefixed with 'if '"))
    else
      let s3 := ltrimmed (s2.drop (((strFind s2 ' ').map (· + 1)).getD 0))
      mkIfValue s3

/-- `templet::nodes::parse_elifvalue_tag` (nodes.cpp): as for `if`, with
the `elif ` prefix. -/
def parse_elifvalue_tag (ins : List Char) : Except TempletError Node :=
  if !(starts_with ins (("\x7b%").toList) && ends_with ins (("%\x7d").toList)) then
    .error (.invalidTagError ("Tag must be enclosed with \x7b% and %\x7d"))
  else
    let s1 := ins.drop 2
    let s2 := trimmed (s1.take ((strFind s1 '%').getD s1.length))
    if !(starts_with s2 (("elif ").toList)) then
      .error (.invalidTagError ("Tag must be prefixed with 'elif '"))
    else
      let s3 := ltrimmed (s2.drop (((strFind s2 ' ').map (· + 1)).getD 0))
      mkElifValue s3

/-- `templet::nodes::parse_forvalue_tag` (nodes.cpp): strip `\x7b%`, cut at
the first `%`, trim, split on single spaces and require exactly the four
tokens `for <name> as <alias>`; both syntax failures raise
`ExpressionSyntaxError` with the same message. -/
def parse_forvalue_tag (ins : List Char) : Except TempletError Node :=
  if !(starts_with ins (("\x7b%").toList) && ends_with ins (("%\x7d").toList)) then
    .error (.invalidTagError ("Tag must be enclosed with \x7b% and %\x7d"))
  else
    let s1 := ins.drop 2
    let s2 := trimmed (s1.take ((strFind s1 '%').getD s1.length))
    match splitChar s2 ' ' with
    | [t0, t1, t2, t3] =>
      if !(t0 == ("for").toList) || !(t2 == ("as").toList) then
        .error (.expressionSyntaxError ("Unrecognized for expression syntax"))
      else mkForValue t1 t3
    | _ => .error (.expressionSyntaxError ("Unrecognized for expression syntax"))

/-- `Templet::tokenize` (templet.cpp): split the input into text and tag
nodes; block tags recursively tokenize their body, and `endif` / `endfor`
break out of the recursive call consuming the end tag.  Returns the nodes
together with the not-yet-consumed remainder of the input.  Fuelled: each
recursive call (body tokenization or loop continuation) strictly consumes
input, so the wrapper's fuel of length + 1 is never exhausted. -/
def tokenizeAux : Nat → List Char → Except TempletError (List Node × List Char)
  | 0, _ => .error .runtimeFuel
  | fuel + 1, ins =>
    if ins.isEmpty then .ok ([], ins)
    else
      match strFind ins '\x7b' with
      | none => .ok ([.text ins], [])
      | some pos =>
        let textNode : Node := .text (ins.take pos)
        let ins1 := ins.drop pos
        match strFind ins1 '\x7d' with
        | none => .ok ([textNode, .text ins1], [])
        | some endPos =>
          let tag := ins1.take (endPos + 1)
          match tag.get? 1 with
          | some '\\' =>
            let newTag : Node := .text ('\x7b' :: tag.drop 2)
            match tokenizeAux fuel (ins1.drop tag.length) with
            | .error e => .error e
            | .ok (ns, rem) => .ok (textNode :: newTag :: ns, rem)
          | some '$' =>
            match parse_value_tag tag with
            | .error e => .error e
            | .ok node =>
              match tokenizeAux fuel (ins1.drop tag.length) with
              | .error e => .error e
              | .ok (ns, rem) => .ok (textNode :: node :: ns, rem)
          | some '%' =>
            let inner := ltrimmed (tag.drop 2)
            if starts_with inner (("endif").toList) then
              .ok ([textNode], ins1.drop tag.length)
            else if starts_with inner (("endfor").toList) then
              .ok ([textNode], ins1.drop tag.length)
            else if starts_with inner (("if").toList) then
              match parse_ifvalue_tag tag with
              | .error e => .error e
              | .ok node =>
                match tokenizeAux fuel (ins1.drop tag.length) with
                | .error e => .error e
                | .ok (children, rem1) =>
                  match tokenizeAux fuel rem1 with
                  | .error e => .error e
                  | .ok (ns, rem2) =>
                    .ok (textNode :: node.setChildren children :: ns, rem2)
            else if starts_with inner (("elif").toList) then
              match parse_elifvalue_tag tag with
              | .error e => .error e
              | .ok node =>
                match tokenizeAux fuel (ins1.drop tag.length) with
                | .error e => .error e
                | .ok (children, rem1) =>
                  match tokenizeAux fuel rem1 with
                  | .error e => .error e
                  | .ok (ns, rem2) =>
                    .ok (textNode :: node.setChildren children :: ns, rem2)
            else if starts_with inner (("else").toList) then
              match tokenizeAux fuel (ins1.drop tag.length) with
              | .error e => .error e
              | .ok (children, rem1) =>
                match tokenizeAux fuel rem1 with
                | .error e => .error e
                | .ok (ns, rem2) =>
                  .ok (textNode :: Node.elsev children :: ns, rem2)
            else if starts_with inner (("for").toList) then
              match parse_forvalue_tag tag with
              | .error e => .error e
              | .ok node =>
                match tokenizeAux fuel (ins1.drop tag.length) with
                | .error e => .error e
                | .ok (children, rem1) =>
                  match tokenizeAux fuel rem1 with
                  | .error e => .error e
                  | .ok (ns, rem2) =>
                    .ok (textNode :: node.setChildren children :: ns, rem2)
            else
              .error (.invalidTagError ("Unrecognized tag: " ++ String.mk tag))
          | _ =>
            .error (.invalidTagError ("Unrecognized tag: " ++ String.mk tag))

/-- `Templet::tokenize` entry point with its sufficient fuel. -/
def tokenize (ins : List Char) : Except TempletError (List Node × List Char) :=
  tokenizeAux (ins.length + 1) ins

mutual

/-- `Node::evaluate` (nodes.cpp) for each node kind, producing the text the
node appends to the output stream.  `Value::evaluate` catches
`MissingTagError` and appends nothing; `IfValue::evaluate` (shared by
`ElifValue`) treats a resolving condition as true, evaluates children up to
the first Elif/Else clause on true and evaluates every Elif/Else child on
false; `ForValue::evaluate` resolves its list, rejects an alias that
collides with an existing key, and then runs its body once per element. -/
def evalNode : Node → DataMap → Except TempletError (List Char)
  | .text s, _ => .ok s
  | .value name, kv =>
    match parse_tag_string name kv with
    | .ok s => .ok s
    | .error (.missingTagError _) => .ok []
    | .error e => .error e
  | .ifv name children, kv =>
    match parse_tag name kv with
    | .error e => .error e
    | .ok (some _) => evalUntilClause children kv
    | .ok none => evalClauses children kv
  | .elifv name children, kv =>
    match parse_tag name kv with
    | .error e => .error e
    | .ok (some _) => evalUntilClause children kv
    | .ok none => evalClauses children kv
  | .elsev children, kv => evalNodes children kv
  | .forv name alias_ children, kv =>
    match parse_tag_list name kv with
    | .error e => .error e
    | .ok evaluatedList =>
      if (lookupMap kv alias_).isSome then
        .error (.invalidTagError ("For expression alias name collides with an existing name"))
      else evalForLoop evaluatedList alias_ children kv
termination_by n kv => (sizeOf n, 0)
decreasing_by
  all_goals simp_wf
  all_goals
    first
    | (apply Prod.Lex.right; omega)
    | (apply Prod.Lex.left; omega)
    | (apply Prod.Lex.left
       have h1 : 0 < sizeOf name := by cases name <;> simp_arith
       omega)

/-- Sequential evaluation of a node list into one output buffer, aborting
at the first error (the evaluation loops of `Templet::parse` and
`ElseValue::evaluate`). -/
def evalNodes : List Node → DataMap → Except TempletError (List Char)
  | [], _ => .ok []
  | n :: ns, kv =>
    match evalNode n kv with
    | .error e => .error e
    | .ok out =>
      match evalNodes ns kv with
      | .error e => .error e
      | .ok rest => .ok (out ++ rest)
termination_by ns kv => (sizeOf ns, 0)
decreasing_by
  all_goals simp_wf
  all_goals
    first
    | (apply Prod.Lex.right; omega)
    | (apply Prod.Lex.left; omega)
    | (apply Prod.Lex.left
       have h1 : 0 < sizeOf name := by cases name <;> simp_arith
       omega)

/-- The true branch of `IfValue::evaluate`: children up to, not including,
the first Elif/Else child. -/
def evalUntilClause : List Node → DataMap → Except TempletError (List Char)
  | [], _ => .ok []
  | n :: ns, kv =>
    if n.isClause then .ok []
    else
      match evalNode n kv with
      | .error e => .error e
      | .ok out =>
        match evalUntilClause ns kv with
        | .error e => .error e
        | .ok rest => .ok (out ++ rest)
termination_by ns kv => (sizeOf ns, 0)
decreasing_by
  all_goals simp_wf
  all_goals
    first
    | (apply Prod.Lex.right; omega)
    | (apply Prod.Lex.left; omega)
    | (apply Prod.Lex.left
       have h1 : 0 < sizeOf name := by cases name <;> simp_arith
       omega)

/-- The false branch of `IfValue::evaluate`: evaluate exactly the Elif/Else
children, in order. -/
def evalClauses : List Node → DataMap → Except TempletError (List Char)
  | [], _ => .ok []
  | n :: ns, kv =>
    if n.isClause then
      match evalNode n kv with
      | .error e => .error e
      | .ok out =>
        match evalClauses ns kv with
        | .error e => .error e
        | .ok rest => .ok (out ++ rest)
    else evalClauses ns kv
termination_by ns kv => (sizeOf ns, 0)
decreasing_by
  all_goals simp_wf
  all_goals
    first
    | (apply Prod.Lex.right; omega)
    | (apply Prod.Lex.left; omega)
    | (apply Prod.Lex.left
       have h1 : 0 < sizeOf name := by cases name <;> simp_arith
       omega)

/-- The element loop of `ForValue::evaluate`: `newValues` starts as a copy
of the environment and the alias binding is re-assigned for each element. -/
def evalForLoop : List Data → List Char → List Node → DataMap →
    Except TempletError (List Char)
  | [], _, _, _ => .ok []
  | item :: rest, alias_, children, newValues =>
    let nv := mapInsert newValues alias_ item
    match evalNodes children nv with
    | .error e => .error e
    | .ok out =>
      match evalForLoop rest alias_ children nv with
      | .error e => .error e
      | .ok out2 => .ok (out ++ out2)
termination_by items alias_ children kv => (sizeOf children + 1, sizeOf items)
decreasing_by
  all_goals simp_wf
  all_goals
    first
    | (apply Prod.Lex.right; omega)
    | (apply Prod.Lex.left; omega)
    | (apply Prod.Lex.left
       have h1 : 0 < sizeOf name := by cases name <;> simp_arith
       omega)

end

/-- `Templet::parse` (templet.cpp): tokenize a copy of the template text,
evaluate every top-level node into the output buffer, and return the
buffer; any error propagates to the caller. -/
def Templet.parse (text : List Char) (values : DataMap) :
    Except TempletError (List Char) :=
  match tokenize text with
  | .error e => .error e
  | .ok (nodes, _) => evalNodes nodes values

/-- The `render(templateText, environment)` interface of the spec, in terms
of `Templet::parse`. -/
def render (tpl : String) (env : DataMap) : Except TempletError String :=
  match Templet.parse tpl.toList env with
  | .error e => .error e
  | .ok out => .ok (String.mk out)

/-- Sequential concatenation of outputs, aborting at the first error: the
claim-side description of repeated appends to one output buffer. -/
def seqConcat : List (Except TempletError (List Char)) →
    Except TempletError (List Char)
  | [] => .ok []
  | r :: rs =>
    match r with
    | .error e => .error e
    | .ok out =>
      match seqConcat rs with
      | .error e => .error e
      | .ok rest => .ok (out ++ rest)


/-! Helper lemmas about the string primitives and the evaluator. -/

lemma strFind_eq_none_of_not_mem {c : Char} :
    ∀ {l : List Char}, c ∉ l → strFind l c = none := by
  intro l
  induction l with
  | nil => intro _; rfl
  | cons a as ih =>
    intro h
    simp only [List.mem_cons, not_or] at h
    have ha : (a == c) = false := by
      cases hac : a == c
      · rfl
      · exact absurd (beq_iff_eq.mp hac).symm h.1
    simp [strFind, ha, ih h.2]

lemma strFind_append_cons {c : Char} :
    ∀ (l r : List Char), c ∉ l → strFind (l ++ c :: r) c = some l.length := by
  intro l
  induction l with
  | nil => intro r _; simp [strFind]
  | cons a as ih =>
    intro r h
    simp only [List.mem_cons, not_or] at h
    have ha : (a == c) = false := by
      cases hac : a == c
      · rfl
      · exact absurd (beq_iff_eq.mp hac).symm h.1
    simp [strFind, ha, ih r h.2]

lemma takeAppendLen {α : Type} (l r : List α) : (l ++ r).take l.length = l := by
  induction l with
  | nil => rfl
  | cons a as ih => simp [List.take, ih]

lemma dropAppendLen {α : Type} (l r : List α) : (l ++ r).drop l.length = r := by
  induction l with
  | nil => rfl
  | cons a as ih => simp [List.drop, ih]

lemma takeAppendLenSucc {α : Type} (l : List α) (c : α) (r : List α) :
    (l ++ c :: r).take (l.length + 1) = l ++ [c] := by
  induction l with
  | nil => rfl
  | cons a as ih =>
    simp only [List.cons_append, List.length_cons, List.take_succ_cons, ih]

lemma mapInsert_mapInsert (m : DataMap) (k : List Char) (v w : Data) :
    mapInsert (mapInsert m k v) k w = mapInsert m k w := by
  induction m with
  | nil => simp [mapInsert]
  | cons p rest ih =>
    obtain ⟨pk, pv⟩ := p
    by_cases h : (pk == k) = true
    · simp [mapInsert, h]
    · simp only [mapInsert, h, Bool.false_eq_true, if_false, if_neg]
      rw [ih]

/-- The claim-side view of the true branch of `IfValue::evaluate`: the loop
with a break is evaluation of the children before the first clause. -/
lemma evalUntilClause_eq_takeWhile (ns : List Node) (kv : DataMap) :
    evalUntilClause ns kv = evalNodes (ns.takeWhile (fun n => !n.isClause)) kv := by
  induction ns with
  | nil => simp [evalUntilClause, evalNodes, List.takeWhile]
  | cons n rest ih =>
    by_cases h : n.isClause = true
    · rw [evalUntilClause, if_pos h]
      simp [List.takeWhile, h, evalNodes]
    · have h' : n.isClause = false := by revert h; cases n.isClause <;> simp
      rw [evalUntilClause, if_neg (by simp [h'])]
      simp only [List.takeWhile, h', Bool.not_false, evalNodes, ih]

/-- The claim-side view of the false branch of `IfValue::evaluate`: the loop
that skips non-clause children is evaluation of the clause children. -/
lemma evalClauses_eq_filter (ns : List Node) (kv : DataMap) :
    evalClauses ns kv = evalNodes (ns.filter Node.isClause) kv := by
  induction ns with
  | nil => simp [evalClauses, evalNodes, List.filter]
  | cons n rest ih =>
    by_cases h : n.isClause = true
    · rw [evalClauses, if_pos h]
      simp only [List.filter, h, evalNodes, ih]
    · have h' : n.isClause = false := by revert h; cases n.isClause <;> simp
      rw [evalClauses, if_neg (by simp [h'])]
      simp only [List.filter, h', ih]

/-- The element loop of `ForValue::evaluate` concatenates, in list order,
the evaluation of the body against the environment with the alias bound to
the element; rebinding the alias in the carried copy equals binding it in
the original copy. -/
lemma evalForLoop_eq_seqConcat (xs : List Data) (alias_ : List Char)
    (children : List Node) (m : DataMap) :
    evalForLoop xs alias_ children m =
      seqConcat (xs.map (fun item => evalNodes children (mapInsert m alias_ item))) := by
  induction xs generalizing m with
  | nil => simp [evalForLoop, seqConcat]
  | cons item rest ih =>
    rw [evalForLoop]
    simp only [List.map, seqConcat]
    rw [ih (mapInsert m alias_ item)]
    have hcollapse :
        (rest.map (fun it => evalNodes children (mapInsert (mapInsert m alias_ item) alias_ it))) =
        (rest.map (fun it => evalNodes children (mapInsert m alias_ it))) := by
      apply List.map_congr_left
      intro it _
      rw [mapInsert_mapInsert]
    rw [hcollapse]

lemma mem_validNameChar {nm : List Char} (h : isValidName nm = true) :
    ∀ c ∈ nm, validNameChar c = true := by
  intro c hc
  exact List.all_eq_true.mp h c hc

lemma not_mem_of_invalid_char {nm : List Char} {c : Char}
    (h : isValidName nm = true) (hc : validNameChar c = false) : c ∉ nm := by
  intro hmem
  rw [mem_validNameChar h c hmem] at hc
  cases hc

/-- Resolution of a plain valid identifier is exactly environment lookup
(`parse_tag` for a name with no dot and no bracket). -/
lemma parse_tag_simple {nm : List Char} (kv : DataMap)
    (hv : isValidName nm = true) (hne : nm ≠ []) :
    parse_tag nm kv = .ok (lookupMap kv nm) := by
  have hdot : ('.') ∉ nm := not_mem_of_invalid_char hv (by decide)
  have hbr : ('[') ∉ nm := not_mem_of_invalid_char hv (by decide)
  have hemp : nm.isEmpty = false := by
    cases nm with
    | nil => exact absurd rfl hne
    | cons a as => rfl
  rw [parse_tag]
  rw [show nm.length + 1 = Nat.succ nm.length from rfl]
  rw [parse_tagAux]
  rw [hemp]
  simp only [Bool.false_eq_true, if_false]
  rw [strFind_eq_none_of_not_mem hdot]
  rw [parse_tag_segment]
  rw [strFind_eq_none_of_not_mem hbr]
  simp only [hemp, Bool.false_eq_true, if_false, hv, Bool.not_true]
  cases lookupMap kv nm <;> rfl

lemma starts_with_append (l r : List Char) : starts_with (l ++ r) l = true := by
  rw [starts_with, if_neg]
  · rw [show (l ++ r).take l.length = l from takeAppendLen l r]
    simp
  · simp

lemma ends_with_append (l r : List Char) : ends_with (l ++ r) r = true := by
  rw [ends_with, if_neg]
  · rw [show (l ++ r).length - r.length = l.length from by simp]
    rw [dropAppendLen]
    simp
  · simp

/-- `Value::evaluate` when resolution yields "not found": the
`MissingTagError` from `parse_tag_string` is caught and nothing is
appended. -/
lemma evalNode_value_of_notfound {name : List Char} {kv : DataMap}
    (h : parse_tag name kv = .ok none) : evalNode (.value name) kv = .ok [] := by
  simp only [evalNode, parse_tag_string, h]

/-- `Value::evaluate` when resolution yields a string scalar: exactly its
text is appended. -/
lemma evalNode_value_of_scalar {name s : List Char} {kv : DataMap}
    (h : parse_tag name kv = .ok (some (.value s))) :
    evalNode (.value name) kv = .ok s := by
  simp only [evalNode, parse_tag_string, h]

lemma parse_eq_of_tokenize {text : List Char} {env : DataMap} {ns : List Node}
    {rem : List Char} {r : Except TempletError (List Char)}
    (h : tokenize text = .ok (ns, rem)) (h2 : evalNodes ns env = r) :
    Templet.parse text env = r := by
  simp only [Templet.parse, h]
  exact h2

lemma render_ok_of_parse {tpl : String} {env : DataMap} {out : List Char} {s : String}
    (h : Templet.parse tpl.toList env = .ok out) (h2 : String.mk out = s) :
    render tpl env = .ok s := by
  simp only [render, h, h2]

lemma render_error_of_parse {tpl : String} {env : DataMap} {e : TempletError}
    (h : Templet.parse tpl.toList env = .error e) :
    render tpl env = .error e := by
  simp only [render, h]

lemma evalNode_text_eq (s : List Char) (kv : DataMap) : evalNode (.text s) kv = .ok s := by
  simp only [evalNode]

lemma evalNode_elsev_eq {cs : List Node} {kv : DataMap}
    {r : Except TempletError (List Char)} (h : evalNodes cs kv = r) :
    evalNode (.elsev cs) kv = r := by
  simp only [evalNode]
  exact h

lemma evalNode_ifv_true {name : List Char} {cs : List Node} {kv : DataMap} {v : Data}
    {r : Except TempletError (List Char)} (h : parse_tag name kv = .ok (some v))
    (h2 : evalUntilClause cs kv = r) : evalNode (.ifv name cs) kv = r := by
  simp only [evalNode, h]
  exact h2

lemma evalNode_ifv_false {name : List Char} {cs : List Node} {kv : DataMap}
    {r : Except TempletError (List Char)} (h : parse_tag name kv = .ok none)
    (h2 : evalClauses cs kv = r) : evalNode (.ifv name cs) kv = r := by
  simp only [evalNode, h]
  exact h2

lemma evalNode_elifv_true {name : List Char} {cs : List Node} {kv : DataMap} {v : Data}
    {r : Except TempletError (List Char)} (h : parse_tag name kv = .ok (some v))
    (h2 : evalUntilClause cs kv = r) : evalNode (.elifv name cs) kv = r := by
  simp only [evalNode, h]
  exact h2

lemma evalNode_elifv_false {name : List Char} {cs : List Node} {kv : DataMap}
    {r : Except TempletError (List Char)} (h : parse_tag name kv = .ok none)
    (h2 : evalClauses cs kv = r) : evalNode (.elifv name cs) kv = r := by
  simp only [evalNode, h]
  exact h2

lemma evalNode_forv_run {name alias_ : List Char} {cs : List Node} {kv : DataMap}
    {xs : List Data} {r : Except TempletError (List Char)}
    (h : parse_tag_list name kv = .ok xs) (hal : lookupMap kv alias_ = none)
    (h2 : evalForLoop xs alias_ cs kv = r) : evalNode (.forv name alias_ cs) kv = r := by
  simp only [evalNode, h, hal, Option.isSome_none, Bool.false_eq_true, if_false]
  exact h2

lemma evalNode_forv_error {name alias_ : List Char} {cs : List Node} {kv : DataMap}
    {e : TempletError} (h : parse_tag_list name kv = .error e) :
    evalNode (.forv name alias_ cs) kv = .error e := by
  simp only [evalNode, h]

lemma evalNode_forv_collision {name alias_ : List Char} {cs : List Node} {kv : DataMap}
    {xs : List Data} (h : parse_tag_list name kv = .ok xs)
    (hal : (lookupMap kv alias_).isSome = true) :
    evalNode (.forv name alias_ cs) kv =
      .error (.invalidTagError ("For expression alias name collides with an existing name")) := by
  simp only [evalNode, h, hal, if_true]

lemma evalNodes_nil_eq (kv : DataMap) : evalNodes [] kv = .ok [] := by
  simp only [evalNodes]

lemma evalNodes_cons_eq {n : Node} {ns : List Node} {kv : DataMap} {out rest r : List Char}
    (h1 : evalNode n kv = .ok out) (h2 : evalNodes ns kv = .ok rest)
    (h3 : out ++ rest = r) : evalNodes (n :: ns) kv = .ok r := by
  simp only [evalNodes, h1, h2, h3]

lemma evalNodes_cons_error {n : Node} {ns : List Node} {kv : DataMap} {e : TempletError}
    (h1 : evalNode n kv = .error e) : evalNodes (n :: ns) kv = .error e := by
  simp only [evalNodes, h1]

lemma evalNodes_cons_error2 {n : Node} {ns : List Node} {kv : DataMap} {out : List Char}
    {e : TempletError} (h1 : evalNode n kv = .ok out) (h2 : evalNodes ns kv = .error e) :
    evalNodes (n :: ns) kv = .error e := by
  simp only [evalNodes, h1, h2]

lemma evalUntilClause_nil_eq (kv : DataMap) : evalUntilClause [] kv = .ok [] := by
  simp only [evalUntilClause]

lemma evalUntilClause_stop {n : Node} {ns : List Node} (kv : DataMap)
    (hc : n.isClause = true) : evalUntilClause (n :: ns) kv = .ok [] := by
  simp only [evalUntilClause, hc, if_true]

lemma evalUntilClause_cons_eq {n : Node} {ns : List Node} {kv : DataMap}
    {out rest r : List Char} (hc : n.isClause = false) (h1 : evalNode n kv = .ok out)
    (h2 : evalUntilClause ns kv = .ok rest) (h3 : out ++ rest = r) :
    evalUntilClause (n :: ns) kv = .ok r := by
  simp only [evalUntilClause, hc, Bool.false_eq_true, if_false, h1, h2, h3]

lemma evalClauses_nil_eq (kv : DataMap) : evalClauses [] kv = .ok [] := by
  simp only [evalClauses]

lemma evalClauses_skip {n : Node} {ns : List Node} {kv : DataMap}
    {r : Except TempletError (List Char)} (hc : n.isClause = false)
    (h2 : evalClauses ns kv = r) : evalClauses (n :: ns) kv = r := by
  simp only [evalClauses, hc, Bool.false_eq_true, if_false]
  exact h2

lemma evalClauses_cons_eq {n : Node} {ns : List Node} {kv : DataMap}
    {out rest r : List Char} (hc : n.isClause = true) (h1 : evalNode n kv = .ok out)
    (h2 : evalClauses ns kv = .ok rest) (h3 : out ++ rest = r) :
    evalClauses (n :: ns) kv = .ok r := by
  simp only [evalClauses, hc, if_true, h1, h2, h3]

lemma evalForLoop_nil_eq (alias_ : List Char) (cs : List Node) (kv : DataMap) :
    evalForLoop [] alias_ cs kv = .ok [] := by
  simp only [evalForLoop]

lemma evalForLoop_cons_eq {item : Data} {rest : List Data} {alias_ : List Char}
    {cs : List Node} {kv nv : DataMap} {out out2 r : List Char}
    (hnv : mapInsert kv alias_ item = nv) (h1 : evalNodes cs nv = .ok out)
    (h2 : evalForLoop rest alias_ cs nv = .ok out2) (h3 : out ++ out2 = r) :
    evalForLoop (item :: rest) alias_ cs kv = .ok r := by
  simp only [evalForLoop, hnv, h1, h2, h3]


/-- C1: evaluating a Value node whose path expression does not resolve
appends nothing and raises no error, and one whose path resolves to a
string scalar appends exactly that scalar's text; in particular
render of a lone value tag for x gives "" against the empty environment
and "v" when x is bound to Scalar "v". -/
theorem value_unset_silent_scalar_printed :
    (∀ (name : List Char) (kv : DataMap),
      parse_tag name kv = .ok none → evalNode (.value name) kv = .ok [])
  ∧ (∀ (name s : List Char) (kv : DataMap),
      parse_tag name kv = .ok (some (.value s)) → evalNode (.value name) kv = .ok s)
  ∧ render ("\x7b$x\x7d") [] = .ok ("")
  ∧ render ("\x7b$x\x7d") [([('x')], .value [('v')])] = .ok ("v") := by
  refine ⟨fun name kv h => evalNode_value_of_notfound h,
    fun name s kv h => evalNode_value_of_scalar h, ?_, ?_⟩
  · exact render_ok_of_parse
      (parse_eq_of_tokenize
        (show tokenize (("\x7b$x\x7d").toList) =
          .ok ([.text [], .value [('x')]], []) from rfl)
        (evalNodes_cons_eq (evalNode_text_eq [] [])
          (evalNodes_cons_eq
            (evalNode_value_of_notfound (show parse_tag [('x')] [] = .ok none from rfl))
            (evalNodes_nil_eq []) rfl)
          rfl))
      rfl
  · exact render_ok_of_parse
      (parse_eq_of_tokenize
        (show tokenize (("\x7b$x\x7d").toList) =
          .ok ([.text [], .value [('x')]], []) from rfl)
        (evalNodes_cons_eq (evalNode_text_eq [] [([('x')], .value [('v')])])
          (evalNodes_cons_eq
            (evalNode_value_of_scalar
              (show parse_tag [('x')] [([('x')], .value [('v')])] =
                .ok (some (Data.value [('v')])) from rfl))
            (evalNodes_nil_eq [([('x')], .value [('v')])]) rfl)
          rfl))
      rfl

/-- Witness for C1 at concrete inputs. -/
theorem value_unset_silent_scalar_printed_witness :
    evalNode (.value [('y')]) [] = .ok [] ∧
    evalNode (.value [('z')]) [([('z')], .value [('w')])] = .ok [('w')] :=
  ⟨value_unset_silent_scalar_printed.1 [('y')] [] rfl,
   value_unset_silent_scalar_printed.2.1 [('z')] [('w')] [([('z')], .value [('w')])] rfl⟩

/-- C3: a For node whose source resolves to a List visits the elements in
list order, evaluating every child against the parent environment extended
with the alias bound to the element, concatenating onto one buffer with no
separator; the for/endfor example renders "J,K,". -/
theorem for_loop_visits_in_order :
    (∀ (name alias_ : List Char) (children : List Node) (kv : DataMap) (xs : List Data),
      parse_tag name kv = .ok (some (.list xs)) →
      lookupMap kv alias_ = none →
      evalNode (.forv name alias_ children) kv =
        seqConcat (xs.map (fun item => evalNodes children (mapInsert kv alias_ item))))
  ∧ render ("\x7b% for xs as x %\x7d\x7b$x\x7d,\x7b% endfor %\x7d")
      [([('x'), ('s')], .list [.value [('J')], .value [('K')]])] = .ok ("J,K,") := by
  constructor
  · intro name alias_ children kv xs h hal
    simp only [evalNode, parse_tag_list, h, hal, Option.isSome_none, Bool.false_eq_true,
      if_false]
    exact evalForLoop_eq_seqConcat xs alias_ children kv
  · exact render_ok_of_parse
      (parse_eq_of_tokenize
        (show tokenize (("\x7b% for xs as x %\x7d\x7b$x\x7d,\x7b% endfor %\x7d").toList) =
          .ok ([.text [], .forv [('x'), ('s')] [('x')]
            [.text [], .value [('x')], .text [(',')]]], []) from rfl)
        (evalNodes_cons_eq
          (evalNode_text_eq [] [([('x'), ('s')], .list [.value [('J')], .value [('K')]])])
          (evalNodes_cons_eq
            (evalNode_forv_run
              (show parse_tag_list [('x'), ('s')]
                  [([('x'), ('s')], .list [.value [('J')], .value [('K')]])] =
                .ok [Data.value [('J')], Data.value [('K')]] from rfl)
              (show lookupMap [([('x'), ('s')], Data.list [.value [('J')], .value [('K')]])]
                  [('x')] = none from rfl)
              (evalForLoop_cons_eq
                (show mapInsert [([('x'), ('s')], Data.list [.value [('J')], .value [('K')]])]
                    [('x')] (Data.value [('J')]) =
                  [([('x'), ('s')], Data.list [.value [('J')], .value [('K')]]),
                   ([('x')], Data.value [('J')])] from rfl)
                (evalNodes_cons_eq
                  (evalNode_text_eq []
                    [([('x'), ('s')], Data.list [.value [('J')], .value [('K')]]),
                     ([('x')], Data.value [('J')])])
                  (evalNodes_cons_eq
                    (evalNode_value_of_scalar
                      (show parse_tag [('x')]
                          [([('x'), ('s')], Data.list [.value [('J')], .value [('K')]]),
                           ([('x')], Data.value [('J')])] =
                        .ok (some (Data.value [('J')])) from rfl))
                    (evalNodes_cons_eq
                      (evalNode_text_eq [(',')]
                        [([('x'), ('s')], Data.list [.value [('J')], .value [('K')]]),
                         ([('x')], Data.value [('J')])])
                      (evalNodes_nil_eq
                        [([('x'), ('s')], Data.list [.value [('J')], .value [('K')]]),
                         ([('x')], Data.value [('J')])])
                      rfl)
                    rfl)
                  rfl)
                (evalForLoop_cons_eq
                  (show mapInsert
                      [([('x'), ('s')], Data.list [.value [('J')], .value [('K')]]),
                       ([('x')], Data.value [('J')])] [('x')] (Data.value [('K')]) =
                    [([('x'), ('s')], Data.list [.value [('J')], .value [('K')]]),
                     ([('x')], Data.value [('K')])] from rfl)
                  (evalNodes_cons_eq
                    (evalNode_text_eq []
                      [([('x'), ('s')], Data.list [.value [('J')], .value [('K')]]),
                       ([('x')], Data.value [('K')])])
                    (evalNodes_cons_eq
                      (evalNode_value_of_scalar
                        (show parse_tag [('x')]
                            [([('x'), ('s')], Data.list [.value [('J')], .value [('K')]]),
                             ([('x')], Data.value [('K')])] =
                          .ok (some (Data.value [('K')])) from rfl))
                      (evalNodes_cons_eq
                        (evalNode_text_eq [(',')]
                          [([('x'), ('s')], Data.list [.value [('J')], .value [('K')]]),
                           ([('x')], Data.value [('K')])])
                        (evalNodes_nil_eq
                          [([('x'), ('s')], Data.list [.value [('J')], .value [('K')]]),
                           ([('x')], Data.value [('K')])])
                        rfl)
                      rfl)
                    rfl)
                  (evalForLoop_nil_eq [('x')] [.text [], .value [('x')], .text [(',')]]
                    [([('x'), ('s')], Data.list [.value [('J')], .value [('K')]]),
                     ([('x')], Data.value [('K')])])
                  rfl)
                rfl))
            (evalNodes_nil_eq
              [([('x'), ('s')], .list [.value [('J')], .value [('K')]])])
            rfl)
          rfl))
      rfl

/-- Witness for C3 at a concrete For node and environment. -/
theorem for_loop_visits_in_order_witness :
    evalNode (.forv [('y'), ('s')] [('a')] [.text [('!')]])
        [([('y'), ('s')], .list [.value [('u')]])] =
      seqConcat ([Data.value [('u')]].map (fun item =>
        evalNodes [Node.text [('!')]]
          (mapInsert [([('y'), ('s')], Data.list [.value [('u')]])] [('a')] item))) :=
  for_loop_visits_in_order.1 [('y'), ('s')] [('a')] [.text [('!')]]
    [([('y'), ('s')], .list [.value [('u')]])] [Data.value [('u')]] rfl rfl

/-- C5: a template containing no opening brace renders as itself against
every environment. -/
theorem template_without_brace_renders_itself (t : List Char) (env : DataMap)
    (h : ('\x7b') ∉ t) : Templet.parse t env = .ok t := by
  rw [Templet.parse, tokenize]
  cases t with
  | nil => simp [tokenizeAux, evalNodes]
  | cons a as =>
    rw [tokenizeAux]
    rw [show (a :: as).isEmpty = false from rfl]
    simp only [Bool.false_eq_true, if_false]
    rw [strFind_eq_none_of_not_mem h]
    simp only [evalNodes, evalNode]
    simp

/-- Witness for C5 at a concrete template and environment. -/
theorem template_without_brace_renders_itself_witness :
    Templet.parse (("hello").toList) [] = .ok (("hello").toList) :=
  template_without_brace_renders_itself (("hello").toList) [] (by decide)

/-- C2 counterexample: on a false condition the code evaluates every
Elif/Else child, not only the first clause whose condition resolves — an
If node with a resolving Elif child followed by an Else child outputs both
branches ("BX"), where the claim's dispatch rule outputs only "B".  The
same node shape is produced by tokenizing the second template. -/
theorem if_clause_dispatch_counterexample :
    evalNode (.ifv [('a')] [.elifv [('b')] [.text [('B')]], .elsev [.text [('X')]]])
        [([('b')], .value [('t')])] = .ok [('B'), ('X')]
  ∧ render ("\x7b% if a %\x7dA\x7b% elif b %\x7dB\x7b% endif %\x7d\x7b% else %\x7dX\x7b% endif %\x7d")
      [([('b')], .value [('t')])] = .ok ("BX") := by
  constructor
  · exact evalNode_ifv_false
      (show parse_tag [('a')] [([('b')], .value [('t')])] = .ok none from rfl)
      (evalClauses_cons_eq rfl
        (evalNode_elifv_true
          (show parse_tag [('b')] [([('b')], .value [('t')])] =
            .ok (some (Data.value [('t')])) from rfl)
          (evalUntilClause_cons_eq rfl
            (evalNode_text_eq [('B')] [([('b')], .value [('t')])])
            (evalUntilClause_nil_eq [([('b')], .value [('t')])]) rfl))
        (evalClauses_cons_eq rfl
          (evalNode_elsev_eq
            (evalNodes_cons_eq (evalNode_text_eq [('X')] [([('b')], .value [('t')])])
              (evalNodes_nil_eq [([('b')], .value [('t')])]) rfl))
          (evalClauses_nil_eq [([('b')], .value [('t')])]) rfl)
        rfl)
  · exact render_ok_of_parse
      (parse_eq_of_tokenize
        (show tokenize
            (("\x7b% if a %\x7dA\x7b% elif b %\x7dB\x7b% endif %\x7d\x7b% else %\x7dX\x7b% endif %\x7d").toList) =
          .ok ([.text [], .ifv [('a')] [.text [('A')], .elifv [('b')] [.text [('B')]],
            .text [], .elsev [.text [('X')]]]], []) from rfl)
        (evalNodes_cons_eq (evalNode_text_eq [] [([('b')], .value [('t')])])
          (evalNodes_cons_eq
            (evalNode_ifv_false
              (show parse_tag [('a')] [([('b')], .value [('t')])] = .ok none from rfl)
              (evalClauses_skip rfl
                (evalClauses_cons_eq rfl
                  (evalNode_elifv_true
                    (show parse_tag [('b')] [([('b')], .value [('t')])] =
                      .ok (some (Data.value [('t')])) from rfl)
                    (evalUntilClause_cons_eq rfl
                      (evalNode_text_eq [('B')] [([('b')], .value [('t')])])
                      (evalUntilClause_nil_eq [([('b')], .value [('t')])]) rfl))
                  (evalClauses_skip rfl
                    (evalClauses_cons_eq rfl
                      (evalNode_elsev_eq
                        (evalNodes_cons_eq
                          (evalNode_text_eq [('X')] [([('b')], .value [('t')])])
                          (evalNodes_nil_eq [([('b')], .value [('t')])]) rfl))
                      (evalClauses_nil_eq [([('b')], .value [('t')])]) rfl))
                  rfl)))
            (evalNodes_nil_eq [([('b')], .value [('t')])]) rfl)
          rfl))
      rfl

/-- C2 (amended): the condition of an If (or Elif) node is true exactly
when its path resolves, regardless of the resolved value; on true it
evaluates its children up to but not including the first Elif/Else child;
on false it evaluates every Elif/Else child in order, each Elif re-testing
its own condition — with the nested clause structure the tokenizer
produces (at most one clause child per level) this realizes the
first-resolving-Elif / otherwise-Else chain, and the elif-chain example
renders "B". -/
theorem if_clause_dispatch_amended :
    (∀ (name : List Char) (children : List Node) (kv : DataMap) (v : Data),
      parse_tag name kv = .ok (some v) →
      evalNode (.ifv name children) kv =
        evalNodes (children.takeWhile (fun n => !n.isClause)) kv)
  ∧ (∀ (name : List Char) (children : List Node) (kv : DataMap),
      parse_tag name kv = .ok none →
      evalNode (.ifv name children) kv =
        evalNodes (children.filter Node.isClause) kv)
  ∧ render ("\x7b% if a %\x7dA\x7b% elif b %\x7dB\x7b% else %\x7dC\x7b% endif %\x7d")
      [([('b')], .value [('t')])] = .ok ("B") := by
  refine ⟨?_, ?_, ?_⟩
  · intro name children kv v h
    simp only [evalNode, h]
    exact evalUntilClause_eq_takeWhile children kv
  · intro name children kv h
    simp only [evalNode, h]
    exact evalClauses_eq_filter children kv
  · exact render_ok_of_parse
      (parse_eq_of_tokenize
        (show tokenize
            (("\x7b% if a %\x7dA\x7b% elif b %\x7dB\x7b% else %\x7dC\x7b% endif %\x7d").toList) =
          .ok ([.text [], .ifv [('a')] [.text [('A')], .elifv [('b')]
            [.text [('B')], .elsev [.text [('C')]]]]], []) from rfl)
        (evalNodes_cons_eq (evalNode_text_eq [] [([('b')], .value [('t')])])
          (evalNodes_cons_eq
            (evalNode_ifv_false
              (show parse_tag [('a')] [([('b')], .value [('t')])] = .ok none from rfl)
              (evalClauses_skip rfl
                (evalClauses_cons_eq rfl
                  (evalNode_elifv_true
                    (show parse_tag [('b')] [([('b')], .value [('t')])] =
                      .ok (some (Data.value [('t')])) from rfl)
                    (evalUntilClause_cons_eq rfl
                      (evalNode_text_eq [('B')] [([('b')], .value [('t')])])
                      (evalUntilClause_stop [([('b')], .value [('t')])] rfl) rfl))
                  (evalClauses_nil_eq [([('b')], .value [('t')])]) rfl)))
            (evalNodes_nil_eq [([('b')], .value [('t')])]) rfl)
          rfl))
      rfl

/-- Witness for the amended C2 at a concrete If node and environment. -/
theorem if_clause_dispatch_amended_witness :
    evalNode (.ifv [('c')] [.text [('Y')], .elsev [.text [('N')]]])
        [([('c')], .value [('1')])] =
      evalNodes (([Node.text [('Y')], Node.elsev [.text [('N')]]]).takeWhile
        (fun n => !n.isClause)) [([('c')], .value [('1')])] :=
  if_clause_dispatch_amended.1 [('c')] [.text [('Y')], .elsev [.text [('N')]]]
    [([('c')], .value [('1')])] (Data.value [('1')]) rfl

/-- C6 (code behaviour at the failing input): a template with two Else
blocks under one If renders without any error — "Release mode, not debug"
against the empty environment and "Debug mode" when debug is bound — even
though the repository's own test IfElseBlockMultipleElses expects
InvalidTagError. -/
theorem multiple_else_renders_without_error :
    render ("\x7b% if debug %\x7dDebug mode\x7b% else %\x7dRelease mode\x7b% else %\x7d, not debug\x7b% endif %\x7d")
      [] = .ok ("Release mode, not debug")
  ∧ render ("\x7b% if debug %\x7dDebug mode\x7b% else %\x7dRelease mode\x7b% else %\x7d, not debug\x7b% endif %\x7d")
      [([('d'), ('e'), ('b'), ('u'), ('g')], .value [('t')])] = .ok ("Debug mode") := by
  constructor
  · exact render_ok_of_parse
      (parse_eq_of_tokenize
        (show tokenize
            (("\x7b% if debug %\x7dDebug mode\x7b% else %\x7dRelease mode\x7b% else %\x7d, not debug\x7b% endif %\x7d").toList) =
          .ok ([.text [], .ifv [('d'), ('e'), ('b'), ('u'), ('g')]
            [.text [('D'), ('e'), ('b'), ('u'), ('g'), (' '), ('m'), ('o'), ('d'), ('e')],
             .elsev [.text [('R'), ('e'), ('l'), ('e'), ('a'), ('s'), ('e'), (' '), ('m'), ('o'), ('d'), ('e')],
               .elsev [.text [(','), (' '), ('n'), ('o'), ('t'), (' '), ('d'), ('e'), ('b'), ('u'), ('g')]]]]], [])
          from rfl)
        (evalNodes_cons_eq (evalNode_text_eq [] [])
          (evalNodes_cons_eq
            (evalNode_ifv_false
              (show parse_tag [('d'), ('e'), ('b'), ('u'), ('g')] [] = .ok none from rfl)
              (evalClauses_skip rfl
                (evalClauses_cons_eq rfl
                  (evalNode_elsev_eq
                    (evalNodes_cons_eq
                      (evalNode_text_eq [('R'), ('e'), ('l'), ('e'), ('a'), ('s'), ('e'), (' '), ('m'), ('o'), ('d'), ('e')] [])
                      (evalNodes_cons_eq
                        (evalNode_elsev_eq
                          (evalNodes_cons_eq
                            (evalNode_text_eq [(','), (' '), ('n'), ('o'), ('t'), (' '), ('d'), ('e'), ('b'), ('u'), ('g')] [])
                            (evalNodes_nil_eq []) rfl))
                        (evalNodes_nil_eq []) rfl)
                      rfl))
                  (evalClauses_nil_eq []) rfl)))
            (evalNodes_nil_eq []) rfl)
          rfl))
      rfl
  · exact render_ok_of_parse
      (parse_eq_of_tokenize
        (show tokenize
            (("\x7b% if debug %\x7dDebug mode\x7b% else %\x7dRelease mode\x7b% else %\x7d, not debug\x7b% endif %\x7d").toList) =
          .ok ([.text [], .ifv [('d'), ('e'), ('b'), ('u'), ('g')]
            [.text [('D'), ('e'), ('b'), ('u'), ('g'), (' '), ('m'), ('o'), ('d'), ('e')],
             .elsev [.text [('R'), ('e'), ('l'), ('e'), ('a'), ('s'), ('e'), (' '), ('m'), ('o'), ('d'), ('e')],
               .elsev [.text [(','), (' '), ('n'), ('o'), ('t'), (' '), ('d'), ('e'), ('b'), ('u'), ('g')]]]]], [])
          from rfl)
        (evalNodes_cons_eq
          (evalNode_text_eq [] [([('d'), ('e'), ('b'), ('u'), ('g')], .value [('t')])])
          (evalNodes_cons_eq
            (evalNode_ifv_true
              (show parse_tag [('d'), ('e'), ('b'), ('u'), ('g')]
                  [([('d'), ('e'), ('b'), ('u'), ('g')], .value [('t')])] =
                .ok (some (Data.value [('t')])) from rfl)
              (evalUntilClause_cons_eq rfl
                (evalNode_text_eq [('D'), ('e'), ('b'), ('u'), ('g'), (' '), ('m'), ('o'), ('d'), ('e')]
                  [([('d'), ('e'), ('b'), ('u'), ('g')], .value [('t')])])
                (evalUntilClause_stop [([('d'), ('e'), ('b'), ('u'), ('g')], .value [('t')])] rfl)
                rfl))
            (evalNodes_nil_eq [([('d'), ('e'), ('b'), ('u'), ('g')], .value [('t')])]) rfl)
          rfl))
      rfl

/-- C8 counterexample: a For node whose alias collides with an existing
key but whose source path does not resolve fails with MissingTagError, not
InvalidTagError, because `ForValue::evaluate` resolves the source list
before the collision check. -/
theorem for_alias_collision_counterexample :
    evalNode (.forv [('y'), ('s')] [('x')] []) [([('x')], .value [('z')])] =
      .error (.missingTagError ("Tag name not found: ys"))
  ∧ render ("\x7b% for ys as x %\x7d\x7b% endfor %\x7d") [([('x')], .value [('z')])] =
      .error (.missingTagError ("Tag name not found: ys")) := by
  constructor
  · exact evalNode_forv_error
      (show parse_tag_list [('y'), ('s')] [([('x')], .value [('z')])] =
        .error (.missingTagError ("Tag name not found: ys")) from rfl)
  · exact render_error_of_parse
      (parse_eq_of_tokenize
        (show tokenize (("\x7b% for ys as x %\x7d\x7b% endfor %\x7d").toList) =
          .ok ([.text [], .forv [('y'), ('s')] [('x')] [.text []]], []) from rfl)
        (evalNodes_cons_error2
          (evalNode_text_eq [] [([('x')], .value [('z')])])
          (evalNodes_cons_error
            (evalNode_forv_error
              (show parse_tag_list [('y'), ('s')] [([('x')], .value [('z')])] =
                .error (.missingTagError ("Tag name not found: ys")) from rfl)))))

/-- C8 (amended): a For node whose source path resolves to a List and
whose alias already exists as a key in the environment fails with
InvalidTagError; the alias-collision example fails exactly so.  (When the
source does not resolve, the failure is MissingTagError instead, raised
before the collision check.) -/
theorem for_alias_collision_invalid_tag :
    (∀ (name alias_ : List Char) (children : List Node) (kv : DataMap) (xs : List Data),
      parse_tag name kv = .ok (some (.list xs)) →
      (lookupMap kv alias_).isSome = true →
      evalNode (.forv name alias_ children) kv =
        .error (.invalidTagError ("For expression alias name collides with an existing name")))
  ∧ render ("\x7b% for xs as x %\x7d\x7b% endfor %\x7d")
      [([('x'), ('s')], .list []), ([('x')], .value [('z')])] =
      .error (.invalidTagError ("For expression alias name collides with an existing name")) := by
  constructor
  · intro name alias_ children kv xs h hal
    simp only [evalNode, parse_tag_list, h, hal, if_true]
  · exact render_error_of_parse
      (parse_eq_of_tokenize
        (show tokenize (("\x7b% for xs as x %\x7d\x7b% endfor %\x7d").toList) =
          .ok ([.text [], .forv [('x'), ('s')] [('x')] [.text []]], []) from rfl)
        (evalNodes_cons_error2
          (evalNode_text_eq [] [([('x'), ('s')], .list []), ([('x')], .value [('z')])])
          (evalNodes_cons_error
            (evalNode_forv_collision
              (show parse_tag_list [('x'), ('s')]
                  [([('x'), ('s')], .list []), ([('x')], .value [('z')])] = .ok [] from rfl)
              (show (lookupMap [([('x'), ('s')], Data.list []), ([('x')], Data.value [('z')])]
                  [('x')]).isSome = true from rfl)))))

/-- Witness for the amended C8 at a concrete For node and environment. -/
theorem for_alias_collision_invalid_tag_witness :
    evalNode (.forv [('q')] [('p')] [])
        [([('q')], .list []), ([('p')], .value [('z')])] =
      .error (.invalidTagError ("For expression alias name collides with an existing name")) :=
  for_alias_collision_invalid_tag.1 [('q')] [('p')] []
    [([('q')], .list []), ([('p')], .value [('z')])] [] rfl rfl

/-- C9 counterexample: a template holding a brace with no closing brace
after it can still fail to render, when an earlier complete tag is
invalid — so "rendering succeeds without error" does not hold for every
template with an unmatched brace. -/
theorem unmatched_brace_after_bad_tag_errors :
    render ("\x7b@\x7d\x7b foo") [] =
      .error (.invalidTagError ("Unrecognized tag: \x7b@\x7d")) :=
  render_error_of_parse (show Templet.parse (("\x7b@\x7d\x7b foo").toList) [] =
    .error (.invalidTagError ("Unrecognized tag: \x7b@\x7d")) from rfl)

/-- C9 (amended): when the lexer reaches an opening brace with no closing
brace in the remaining input, the remainder including the brace is emitted
as a literal Text node; for a template whose part before the unmatched
brace holds no brace at all, render returns the template unchanged for
every environment.  (An invalid tag before the unmatched brace still
aborts the render, as the counterexample shows.) -/
theorem unmatched_brace_tail_literal (t u : List Char) (env : DataMap)
    (ht : ('\x7b') ∉ t) (hu : ('\x7d') ∉ u) :
    Templet.parse (t ++ ('\x7b') :: u) env = .ok (t ++ ('\x7b') :: u) := by
  have hne : (t ++ ('\x7b') :: u).isEmpty = false := by
    cases t <;> rfl
  have hfb : strFind (t ++ ('\x7b') :: u) ('\x7b') = some t.length :=
    strFind_append_cons t u ht
  have hnc : strFind (('\x7b') :: u) ('\x7d') = none := by
    apply strFind_eq_none_of_not_mem
    simp only [List.mem_cons, not_or]
    exact ⟨by decide, hu⟩
  rw [Templet.parse, tokenize, tokenizeAux]
  simp only [hne, Bool.false_eq_true, if_false, hfb,
    takeAppendLen t (('\x7b') :: u), dropAppendLen t (('\x7b') :: u), hnc]
  simp only [evalNodes, evalNode]
  simp

/-- Witness for the amended C9 at the concrete template of the claim. -/
theorem unmatched_brace_tail_literal_witness :
    Templet.parse ((("hello world ").toList) ++ ('\x7b') :: (("$ foo").toList)) [] =
      .ok ((("hello world ").toList) ++ ('\x7b') :: (("$ foo").toList)) :=
  unmatched_brace_tail_literal (("hello world ").toList) (("$ foo").toList) []
    (by decide) (by decide)

/-- C7 counterexample: a for-tag whose body contains a percent sign is cut
at that percent sign before the token check, so an inner text of five
space-separated tokens can still parse successfully rather than raising
ExpressionSyntaxError. -/
theorem for_tag_percent_truncation_counterexample :
    parse_forvalue_tag (("\x7b% for xs as x% junk %\x7d").toList) =
      .ok (.forv [('x'), ('s')] [('x')] []) := rfl

/-- C7 (amended): for every for-tag whose inner text contains no percent
sign and does not split — after trimming, on single spaces — into exactly
the four tokens for-name-as-alias, parsing fails with
ExpressionSyntaxError, an error kind distinct from InvalidTagError; the
malformed for-tag example fails exactly so, both in the tag parser and
through render. -/
theorem for_tag_bad_grammar_syntax_error :
    (∀ (inner : List Char), ('%') ∉ inner →
      (∀ t1 t3 : List Char,
        splitChar (trimmed inner) (' ') ≠ [[('f'), ('o'), ('r')], t1, [('a'), ('s')], t3]) →
      parse_forvalue_tag (('\x7b') :: ('%') :: (inner ++ [('%'), ('\x7d')])) =
        .error (.expressionSyntaxError ("Unrecognized for expression syntax")))
  ∧ (∀ m1 m2 : String,
      TempletError.expressionSyntaxError m1 ≠ TempletError.invalidTagError m2)
  ∧ render ("\x7b% for xs %\x7d") [] =
      .error (.expressionSyntaxError ("Unrecognized for expression syntax")) := by
  refine ⟨?_, fun m1 m2 h => TempletError.noConfusion h, ?_⟩
  · intro inner hpc h4
    have hstart : starts_with (('\x7b') :: ('%') :: (inner ++ [('%'), ('\x7d')]))
        ((("\x7b%").toList)) = true := by
      rw [show ('\x7b') :: ('%') :: (inner ++ [('%'), ('\x7d')]) =
        ((("\x7b%").toList)) ++ (inner ++ [('%'), ('\x7d')]) from rfl]
      exact starts_with_append _ _
    have hend : ends_with (('\x7b') :: ('%') :: (inner ++ [('%'), ('\x7d')]))
        ((("%\x7d").toList)) = true := by
      rw [show ('\x7b') :: ('%') :: (inner ++ [('%'), ('\x7d')]) =
        (('\x7b') :: ('%') :: inner) ++ ((("%\x7d").toList)) from by simp]
      exact ends_with_append _ _
    have hf : strFind (inner ++ [('%'), ('\x7d')]) ('%') = some inner.length := by
      rw [show inner ++ [('%'), ('\x7d')] = inner ++ ('%') :: [('\x7d')] from rfl]
      exact strFind_append_cons inner [('\x7d')] hpc
    have hdrop : (('\x7b') :: ('%') :: (inner ++ [('%'), ('\x7d')])).drop 2 =
        inner ++ [('%'), ('\x7d')] := rfl
    rw [parse_forvalue_tag]
    simp only [hstart, hend, Bool.and_self, Bool.not_true, Bool.false_eq_true, if_false,
      hdrop, hf, Option.getD_some, takeAppendLen inner [('%'), ('\x7d')]]
    rcases hE : splitChar (trimmed inner) (' ') with
        _ | ⟨t0, _ | ⟨u1, _ | ⟨u2, _ | ⟨u3, _ | ⟨u4, rest4⟩⟩⟩⟩⟩
    · rfl
    · rfl
    · rfl
    · rfl
    · cases hcond : (!(t0 == (("for").toList)) || !(u2 == (("as").toList))) with
      | true => simp only [hcond, if_true]
      | false =>
        simp only [Bool.or_eq_false_iff, Bool.not_eq_false'] at hcond
        exact absurd (by rw [hE, beq_iff_eq.mp hcond.1, beq_iff_eq.mp hcond.2]; rfl)
          (h4 u1 u3)
    · rfl
  · exact render_error_of_parse
      (show Templet.parse (("\x7b% for xs %\x7d").toList) [] =
        .error (.expressionSyntaxError ("Unrecognized for expression syntax")) from rfl)

/-- Witness for the amended C7 at the inner text of the malformed
for-tag example. -/
theorem for_tag_bad_grammar_syntax_error_witness :
    parse_forvalue_tag (('\x7b') :: ('%') :: (((" for xs ").toList) ++ [('%'), ('\x7d')])) =
      .error (.expressionSyntaxError ("Unrecognized for expression syntax")) :=
  for_tag_bad_grammar_syntax_error.1 ((" for xs ").toList) (by decide)
    (fun t1 t3 hcon => by
      rw [show splitChar (trimmed ((" for xs ").toList)) (' ') =
        [[('f'), ('o'), ('r')], [('x'), ('s')]] from rfl] at hcon
      exact absurd hcon (by simp))

lemma tokenizeAux_nil (f : Nat) : tokenizeAux (f + 1) [] = .ok ([], []) := by
  rw [tokenizeAux]
  rfl

/-- Tokenizing an unclosed if block: the input is a prefix without braces,
a tag text ending at the first closing brace whose inner text dispatches
to the if branch, and a remainder whose tokenization consumes everything;
the nodes of the remainder become the children of the unclosed If node and
tokenization ends without error. -/
lemma tokenize_unclosed_block_if (f : Nat) (pre body rest : List Char)
    (node : Node) (ns : List Node)
    (hpre : ('\x7b') ∉ pre) (hb : ('\x7d') ∉ body)
    (h1 : starts_with (ltrimmed (body ++ [('\x7d')])) (("endif").toList) = false)
    (h2 : starts_with (ltrimmed (body ++ [('\x7d')])) (("endfor").toList) = false)
    (h3 : starts_with (ltrimmed (body ++ [('\x7d')])) (("if").toList) = true)
    (hp : parse_ifvalue_tag (('\x7b') :: ('%') :: (body ++ [('\x7d')])) = .ok node)
    (hrest : tokenizeAux (f + 1) rest = .ok (ns, [])) :
    tokenizeAux ((f + 1) + 1)
        (pre ++ ((('\x7b') :: ('%') :: (body ++ [('\x7d')])) ++ rest)) =
      .ok ([.text pre, node.setChildren ns], []) := by
  have hbm : ('\x7d') ∉ ('\x7b') :: ('%') :: body := by
    simp only [List.mem_cons, not_or]
    exact ⟨by decide, by decide, hb⟩
  have hshape : (('\x7b') :: ('%') :: (body ++ [('\x7d')])) ++ rest =
      (('\x7b') :: ('%') :: body) ++ (('\x7d') :: rest) := by simp
  have a1 : (pre ++ ((('\x7b') :: ('%') :: (body ++ [('\x7d')])) ++ rest)).isEmpty =
      false := by cases pre <;> rfl
  have a2 : strFind (pre ++ ((('\x7b') :: ('%') :: (body ++ [('\x7d')])) ++ rest))
      ('\x7b') = some pre.length :=
    strFind_append_cons pre ((('%') :: (body ++ [('\x7d')])) ++ rest) hpre
  have a3 : (pre ++ ((('\x7b') :: ('%') :: (body ++ [('\x7d')])) ++ rest)).take
      pre.length = pre := takeAppendLen pre _
  have a4 : (pre ++ ((('\x7b') :: ('%') :: (body ++ [('\x7d')])) ++ rest)).drop
      pre.length = (('\x7b') :: ('%') :: (body ++ [('\x7d')])) ++ rest :=
    dropAppendLen pre _
  have a5 : strFind ((('\x7b') :: ('%') :: (body ++ [('\x7d')])) ++ rest) ('\x7d') =
      some ((('\x7b') :: ('%') :: body).length) := by
    rw [hshape]
    exact strFind_append_cons (('\x7b') :: ('%') :: body) rest hbm
  have a6 : ((('\x7b') :: ('%') :: (body ++ [('\x7d')])) ++ rest).take
      ((('\x7b') :: ('%') :: body).length + 1) =
      ('\x7b') :: ('%') :: (body ++ [('\x7d')]) := by
    rw [hshape, takeAppendLenSucc]
    simp
  have a7 : (('\x7b') :: ('%') :: (body ++ [('\x7d')])).get? 1 = some ('%') := rfl
  have a8 : (('\x7b') :: ('%') :: (body ++ [('\x7d')])).drop 2 = body ++ [('\x7d')] :=
    rfl
  have a9 : ((('\x7b') :: ('%') :: (body ++ [('\x7d')])) ++ rest).drop
      ((('\x7b') :: ('%') :: (body ++ [('\x7d')])).length) = rest :=
    dropAppendLen _ _
  rw [tokenizeAux]
  simp only [a1, Bool.false_eq_true, if_false, a2, a3, a4, a5, a6, a7, a8,
    h1, h2, h3, hp, a9, hrest, tokenizeAux_nil f, if_true]

/-- Tokenizing an unclosed elif block: as for if, with the inner text
dispatching to the elif branch. -/
lemma tokenize_unclosed_block_elif (f : Nat) (pre body rest : List Char)
    (node : Node) (ns : List Node)
    (hpre : ('\x7b') ∉ pre) (hb : ('\x7d') ∉ body)
    (h1 : starts_with (ltrimmed (body ++ [('\x7d')])) (("endif").toList) = false)
    (h2 : starts_with (ltrimmed (body ++ [('\x7d')])) (("endfor").toList) = false)
    (h3 : starts_with (ltrimmed (body ++ [('\x7d')])) (("if").toList) = false)
    (h4 : starts_with (ltrimmed (body ++ [('\x7d')])) (("elif").toList) = true)
    (hp : parse_elifvalue_tag (('\x7b') :: ('%') :: (body ++ [('\x7d')])) = .ok node)
    (hrest : tokenizeAux (f + 1) rest = .ok (ns, [])) :
    tokenizeAux ((f + 1) + 1)
        (pre ++ ((('\x7b') :: ('%') :: (body ++ [('\x7d')])) ++ rest)) =
      .ok ([.text pre, node.setChildren ns], []) := by
  have hbm : ('\x7d') ∉ ('\x7b') :: ('%') :: body := by
    simp only [List.mem_cons, not_or]
    exact ⟨by decide, by decide, hb⟩
  have hshape : (('\x7b') :: ('%') :: (body ++ [('\x7d')])) ++ rest =
      (('\x7b') :: ('%') :: body) ++ (('\x7d') :: rest) := by simp
  have a1 : (pre ++ ((('\x7b') :: ('%') :: (body ++ [('\x7d')])) ++ rest)).isEmpty =
      false := by cases pre <;> rfl
  have a2 : strFind (pre ++ ((('\x7b') :: ('%') :: (body ++ [('\x7d')])) ++ rest))
      ('\x7b') = some pre.length :=
    strFind_append_cons pre ((('%') :: (body ++ [('\x7d')])) ++ rest) hpre
  have a3 : (pre ++ ((('\x7b') :: ('%') :: (body ++ [('\x7d')])) ++ rest)).take
      pre.length = pre := takeAppendLen pre _
  have a4 : (pre ++ ((('\x7b') :: ('%') :: (body ++ [('\x7d')])) ++ rest)).drop
      pre.length = (('\x7b') :: ('%') :: (body ++ [('\x7d')])) ++ rest :=
    dropAppendLen pre _
  have a5 : strFind ((('\x7b') :: ('%') :: (body ++ [('\x7d')])) ++ rest) ('\x7d') =
      some ((('\x7b') :: ('%') :: body).length) := by
    rw [hshape]
    exact strFind_append_cons (('\x7b') :: ('%') :: body) rest hbm
  have a6 : ((('\x7b') :: ('%') :: (body ++ [('\x7d')])) ++ rest).take
      ((('\x7b') :: ('%') :: body).length + 1) =
      ('\x7b') :: ('%') :: (body ++ [('\x7d')]) := by
    rw [hshape, takeAppendLenSucc]
    simp
  have a7 : (('\x7b') :: ('%') :: (body ++ [('\x7d')])).get? 1 = some ('%') := rfl
  have a8 : (('\x7b') :: ('%') :: (body ++ [('\x7d')])).drop 2 = body ++ [('\x7d')] :=
    rfl
  have a9 : ((('\x7b') :: ('%') :: (body ++ [('\x7d')])) ++ rest).drop
      ((('\x7b') :: ('%') :: (body ++ [('\x7d')])).length) = rest :=
    dropAppendLen _ _
  rw [tokenizeAux]
  simp only [a1, Bool.false_eq_true, if_false, a2, a3, a4, a5, a6, a7, a8,
    h1, h2, h3, h4, hp, a9, hrest, tokenizeAux_nil f, if_true]

/-- Tokenizing an unclosed else block: as for if, with the inner text
dispatching to the else branch, which builds the Else node directly. -/
lemma tokenize_unclosed_block_else (f : Nat) (pre body rest : List Char)
    (ns : List Node)
    (hpre : ('\x7b') ∉ pre) (hb : ('\x7d') ∉ body)
    (h1 : starts_with (ltrimmed (body ++ [('\x7d')])) (("endif").toList) = false)
    (h2 : starts_with (ltrimmed (body ++ [('\x7d')])) (("endfor").toList) = false)
    (h3 : starts_with (ltrimmed (body ++ [('\x7d')])) (("if").toList) = false)
    (h4 : starts_with (ltrimmed (body ++ [('\x7d')])) (("elif").toList) = false)
    (h5 : starts_with (ltrimmed (body ++ [('\x7d')])) (("else").toList) = true)
    (hrest : tokenizeAux (f + 1) rest = .ok (ns, [])) :
    tokenizeAux ((f + 1) + 1)
        (pre ++ ((('\x7b') :: ('%') :: (body ++ [('\x7d')])) ++ rest)) =
      .ok ([.text pre, Node.elsev ns], []) := by
  have hbm : ('\x7d') ∉ ('\x7b') :: ('%') :: body := by
    simp only [List.mem_cons, not_or]
    exact ⟨by decide, by decide, hb⟩
  have hshape : (('\x7b') :: ('%') :: (body ++ [('\x7d')])) ++ rest =
      (('\x7b') :: ('%') :: body) ++ (('\x7d') :: rest) := by simp
  have a1 : (pre ++ ((('\x7b') :: ('%') :: (body ++ [('\x7d')])) ++ rest)).isEmpty =
      false := by cases pre <;> rfl
  have a2 : strFind (pre ++ ((('\x7b') :: ('%') :: (body ++ [('\x7d')])) ++ rest))
      ('\x7b') = some pre.length :=
    strFind_append_cons pre ((('%') :: (body ++ [('\x7d')])) ++ rest) hpre
  have a3 : (pre ++ ((('\x7b') :: ('%') :: (body ++ [('\x7d')])) ++ rest)).take
      pre.length = pre := takeAppendLen pre _
  have a4 : (pre ++ ((('\x7b') :: ('%') :: (body ++ [('\x7d')])) ++ rest)).drop
      pre.length = (('\x7b') :: ('%') :: (body ++ [('\x7d')])) ++ rest :=
    dropAppendLen pre _
  have a5 : strFind ((('\x7b') :: ('%') :: (body ++ [('\x7d')])) ++ rest) ('\x7d') =
      some ((('\x7b') :: ('%') :: body).length) := by
    rw [hshape]
    exact strFind_append_cons (('\x7b') :: ('%') :: body) rest hbm
  have a6 : ((('\x7b') :: ('%') :: (body ++ [('\x7d')])) ++ rest).take
      ((('\x7b') :: ('%') :: body).length + 1) =
      ('\x7b') :: ('%') :: (body ++ [('\x7d')]) := by
    rw [hshape, takeAppendLenSucc]
    simp
  have a7 : (('\x7b') :: ('%') :: (body ++ [('\x7d')])).get? 1 = some ('%') := rfl
  have a8 : (('\x7b') :: ('%') :: (body ++ [('\x7d')])).drop 2 = body ++ [('\x7d')] :=
    rfl
  have a9 : ((('\x7b') :: ('%') :: (body ++ [('\x7d')])) ++ rest).drop
      ((('\x7b') :: ('%') :: (body ++ [('\x7d')])).length) = rest :=
    dropAppendLen _ _
  rw [tokenizeAux]
  simp only [a1, Bool.false_eq_true, if_false, a2, a3, a4, a5, a6, a7, a8,
    h1, h2, h3, h4, h5, a9, hrest, tokenizeAux_nil f, if_true]

/-- Tokenizing an unclosed for block: as for if, with the inner text
dispatching to the for branch. -/
lemma tokenize_unclosed_block_for (f : Nat) (pre body rest : List Char)
    (node : Node) (ns : List Node)
    (hpre : ('\x7b') ∉ pre) (hb : ('\x7d') ∉ body)
    (h1 : starts_with (ltrimmed (body ++ [('\x7d')])) (("endif").toList) = false)
    (h2 : starts_with (ltrimmed (body ++ [('\x7d')])) (("endfor").toList) = false)
    (h3 : starts_with (ltrimmed (body ++ [('\x7d')])) (("if").toList) = false)
    (h4 : starts_with (ltrimmed (body ++ [('\x7d')])) (("elif").toList) = false)
    (h5 : starts_with (ltrimmed (body ++ [('\x7d')])) (("else").toList) = false)
    (h6 : starts_with (ltrimmed (body ++ [('\x7d')])) (("for").toList) = true)
    (hp : parse_forvalue_tag (('\x7b') :: ('%') :: (body ++ [('\x7d')])) = .ok node)
    (hrest : tokenizeAux (f + 1) rest = .ok (ns, [])) :
    tokenizeAux ((f + 1) + 1)
        (pre ++ ((('\x7b') :: ('%') :: (body ++ [('\x7d')])) ++ rest)) =
      .ok ([.text pre, node.setChildren ns], []) := by
  have hbm : ('\x7d') ∉ ('\x7b') :: ('%') :: body := by
    simp only [List.mem_cons, not_or]
    exact ⟨by decide, by decide, hb⟩
  have hshape : (('\x7b') :: ('%') :: (body ++ [('\x7d')])) ++ rest =
      (('\x7b') :: ('%') :: body) ++ (('\x7d') :: rest) := by simp
  have a1 : (pre ++ ((('\x7b') :: ('%') :: (body ++ [('\x7d')])) ++ rest)).isEmpty =
      false := by cases pre <;> rfl
  have a2 : strFind (pre ++ ((('\x7b') :: ('%') :: (body ++ [('\x7d')])) ++ rest))
      ('\x7b') = some pre.length :=
    strFind_append_cons pre ((('%') :: (body ++ [('\x7d')])) ++ rest) hpre
  have a3 : (pre ++ ((('\x7b') :: ('%') :: (body ++ [('\x7d')])) ++ rest)).take
      pre.length = pre := takeAppendLen pre _
  have a4 : (pre ++ ((('\x7b') :: ('%') :: (body ++ [('\x7d')])) ++ rest)).drop
      pre.length = (('\x7b') :: ('%') :: (body ++ [('\x7d')])) ++ rest :=
    dropAppendLen pre _
  have a5 : strFind ((('\x7b') :: ('%') :: (body ++ [('\x7d')])) ++ rest) ('\x7d') =
      some ((('\x7b') :: ('%') :: body).length) := by
    rw [hshape]
    exact strFind_append_cons (('\x7b') :: ('%') :: body) rest hbm
  have a6 : ((('\x7b') :: ('%') :: (body ++ [('\x7d')])) ++ rest).take
      ((('\x7b') :: ('%') :: body).length + 1) =
      ('\x7b') :: ('%') :: (body ++ [('\x7d')]) := by
    rw [hshape, takeAppendLenSucc]
    simp
  have a7 : (('\x7b') :: ('%') :: (body ++ [('\x7d')])).get? 1 = some ('%') := rfl
  have a8 : (('\x7b') :: ('%') :: (body ++ [('\x7d')])).drop 2 = body ++ [('\x7d')] :=
    rfl
  have a9 : ((('\x7b') :: ('%') :: (body ++ [('\x7d')])) ++ rest).drop
      ((('\x7b') :: ('%') :: (body ++ [('\x7d')])).length) = rest :=
    dropAppendLen _ _
  rw [tokenizeAux]
  simp only [a1, Bool.false_eq_true, if_false, a2, a3, a4, a5, a6, a7, a8,
    h1, h2, h3, h4, h5, h6, hp, a9, hrest, tokenizeAux_nil f, if_true]

/-- C10: an if, elif, else or for block tag whose matching end tag never
appears is not an error: whatever the brace-free text before the tag, the
tag's inner text and the rest of the template, tokenization stops when the
input is exhausted and every node tokenized from the remaining input
becomes a child of the unclosed block node; in particular the unclosed-if
template renders "Hello " against the empty environment and "Hello world"
when is_world is bound. -/
theorem unclosed_block_children :
    (∀ (f : Nat) (pre body rest : List Char) (node : Node) (ns : List Node),
      ('\x7b') ∉ pre → ('\x7d') ∉ body →
      starts_with (ltrimmed (body ++ [('\x7d')])) (("endif").toList) = false →
      starts_with (ltrimmed (body ++ [('\x7d')])) (("endfor").toList) = false →
      starts_with (ltrimmed (body ++ [('\x7d')])) (("if").toList) = true →
      parse_ifvalue_tag (('\x7b') :: ('%') :: (body ++ [('\x7d')])) = .ok node →
      tokenizeAux (f + 1) rest = .ok (ns, []) →
      tokenizeAux ((f + 1) + 1)
          (pre ++ ((('\x7b') :: ('%') :: (body ++ [('\x7d')])) ++ rest)) =
        .ok ([.text pre, node.setChildren ns], []))
  ∧ (∀ (f : Nat) (pre body rest : List Char) (node : Node) (ns : List Node),
      ('\x7b') ∉ pre → ('\x7d') ∉ body →
      starts_with (ltrimmed (body ++ [('\x7d')])) (("endif").toList) = false →
      starts_with (ltrimmed (body ++ [('\x7d')])) (("endfor").toList) = false →
      starts_with (ltrimmed (body ++ [('\x7d')])) (("if").toList) = false →
      starts_with (ltrimmed (body ++ [('\x7d')])) (("elif").toList) = true →
      parse_elifvalue_tag (('\x7b') :: ('%') :: (body ++ [('\x7d')])) = .ok node →
      tokenizeAux (f + 1) rest = .ok (ns, []) →
      tokenizeAux ((f + 1) + 1)
          (pre ++ ((('\x7b') :: ('%') :: (body ++ [('\x7d')])) ++ rest)) =
        .ok ([.text pre, node.setChildren ns], []))
  ∧ (∀ (f : Nat) (pre body rest : List Char) (ns : List Node),
      ('\x7b') ∉ pre → ('\x7d') ∉ body →
      starts_with (ltrimmed (body ++ [('\x7d')])) (("endif").toList) = false →
      starts_with (ltrimmed (body ++ [('\x7d')])) (("endfor").toList) = false →
      starts_with (ltrimmed (body ++ [('\x7d')])) (("if").toList) = false →
      starts_with (ltrimmed (body ++ [('\x7d')])) (("elif").toList) = false →
      starts_with (ltrimmed (body ++ [('\x7d')])) (("else").toList) = true →
      tokenizeAux (f + 1) rest = .ok (ns, []) →
      tokenizeAux ((f + 1) + 1)
          (pre ++ ((('\x7b') :: ('%') :: (body ++ [('\x7d')])) ++ rest)) =
        .ok ([.text pre, Node.elsev ns], []))
  ∧ (∀ (f : Nat) (pre body rest : List Char) (node : Node) (ns : List Node),
      ('\x7b') ∉ pre → ('\x7d') ∉ body →
      starts_with (ltrimmed (body ++ [('\x7d')])) (("endif").toList) = false →
      starts_with (ltrimmed (body ++ [('\x7d')])) (("endfor").toList) = false →
      starts_with (ltrimmed (body ++ [('\x7d')])) (("if").toList) = false →
      starts_with (ltrimmed (body ++ [('\x7d')])) (("elif").toList) = false →
      starts_with (ltrimmed (body ++ [('\x7d')])) (("else").toList) = false →
      starts_with (ltrimmed (body ++ [('\x7d')])) (("for").toList) = true →
      parse_forvalue_tag (('\x7b') :: ('%') :: (body ++ [('\x7d')])) = .ok node →
      tokenizeAux (f + 1) rest = .ok (ns, []) →
      tokenizeAux ((f + 1) + 1)
          (pre ++ ((('\x7b') :: ('%') :: (body ++ [('\x7d')])) ++ rest)) =
        .ok ([.text pre, node.setChildren ns], []))
  ∧ render ("Hello \x7b% if is_world %\x7dworld") [] = .ok ("Hello ")
  ∧ render ("Hello \x7b% if is_world %\x7dworld")
      [([('i'), ('s'), ('_'), ('w'), ('o'), ('r'), ('l'), ('d')], .value [('t')])] =
      .ok ("Hello world") := by
  refine ⟨?_, ?_, ?_, ?_, ?_, ?_⟩
  · intro f pre body rest node ns hpre hb h1 h2 h3 hp hrest
    exact tokenize_unclosed_block_if f pre body rest node ns hpre hb h1 h2 h3 hp hrest
  · intro f pre body rest node ns hpre hb h1 h2 h3 h4 hp hrest
    exact tokenize_unclosed_block_elif f pre body rest node ns hpre hb h1 h2 h3 h4 hp
      hrest
  · intro f pre body rest ns hpre hb h1 h2 h3 h4 h5 hrest
    exact tokenize_unclosed_block_else f pre body rest ns hpre hb h1 h2 h3 h4 h5 hrest
  · intro f pre body rest node ns hpre hb h1 h2 h3 h4 h5 h6 hp hrest
    exact tokenize_unclosed_block_for f pre body rest node ns hpre hb h1 h2 h3 h4 h5 h6
      hp hrest
  · exact render_ok_of_parse
      (parse_eq_of_tokenize
        (show tokenize (("Hello \x7b% if is_world %\x7dworld").toList) =
          .ok ([.text [('H'), ('e'), ('l'), ('l'), ('o'), (' ')],
            .ifv [('i'), ('s'), ('_'), ('w'), ('o'), ('r'), ('l'), ('d')]
              [.text [('w'), ('o'), ('r'), ('l'), ('d')]]], []) from rfl)
        (evalNodes_cons_eq (evalNode_text_eq [('H'), ('e'), ('l'), ('l'), ('o'), (' ')] [])
          (evalNodes_cons_eq
            (evalNode_ifv_false
              (show parse_tag [('i'), ('s'), ('_'), ('w'), ('o'), ('r'), ('l'), ('d')] [] =
                .ok none from rfl)
              (evalClauses_skip rfl (evalClauses_nil_eq [])))
            (evalNodes_nil_eq []) rfl)
          rfl))
      rfl
  · exact render_ok_of_parse
      (parse_eq_of_tokenize
        (show tokenize (("Hello \x7b% if is_world %\x7dworld").toList) =
          .ok ([.text [('H'), ('e'), ('l'), ('l'), ('o'), (' ')],
            .ifv [('i'), ('s'), ('_'), ('w'), ('o'), ('r'), ('l'), ('d')]
              [.text [('w'), ('o'), ('r'), ('l'), ('d')]]], []) from rfl)
        (evalNodes_cons_eq
          (evalNode_text_eq [('H'), ('e'), ('l'), ('l'), ('o'), (' ')]
            [([('i'), ('s'), ('_'), ('w'), ('o'), ('r'), ('l'), ('d')], .value [('t')])])
          (evalNodes_cons_eq
            (evalNode_ifv_true
              (show parse_tag [('i'), ('s'), ('_'), ('w'), ('o'), ('r'), ('l'), ('d')]
                  [([('i'), ('s'), ('_'), ('w'), ('o'), ('r'), ('l'), ('d')], .value [('t')])] =
                .ok (some (Data.value [('t')])) from rfl)
              (evalUntilClause_cons_eq rfl
                (evalNode_text_eq [('w'), ('o'), ('r'), ('l'), ('d')]
                  [([('i'), ('s'), ('_'), ('w'), ('o'), ('r'), ('l'), ('d')], .value [('t')])])
                (evalUntilClause_nil_eq
                  [([('i'), ('s'), ('_'), ('w'), ('o'), ('r'), ('l'), ('d')], .value [('t')])])
                rfl))
            (evalNodes_nil_eq
              [([('i'), ('s'), ('_'), ('w'), ('o'), ('r'), ('l'), ('d')], .value [('t')])])
            rfl)
          rfl))
      rfl

/-- Witness for C10: an unclosed if block with prefix "Hello ", inner text
" if is_world %" and remainder "world"; the Text node of the remainder
becomes the child of the If node. -/
theorem unclosed_block_children_witness :
    tokenizeAux ((1 + 1) + 1)
        ((("Hello ").toList) ++
          ((('\x7b') :: ('%') :: (((" if is_world %").toList) ++ [('\x7d')])) ++
            (("world").toList))) =
      .ok ([.text (("Hello ").toList),
        (Node.ifv [('i'), ('s'), ('_'), ('w'), ('o'), ('r'), ('l'), ('d')] []).setChildren
          [.text (("world").toList)]], []) :=
  unclosed_block_children.1 1 (("Hello ").toList) ((" if is_world %").toList)
    (("world").toList)
    (.ifv [('i'), ('s'), ('_'), ('w'), ('o'), ('r'), ('l'), ('d')] [])
    [.text (("world").toList)] (by decide) (by decide) rfl rfl rfl rfl rfl
